import Mathlib

set_option maxRecDepth 8192

/-!
Verification of `analysis.py`: a linear reporting script that reads a
quarterly CAC (customer acquisition cost) table, computes mean and median,
compares against a fixed benchmark, renders two charts and writes a text
summary.

Shallow embedding conventions:
* Python floats are modeled as exact rationals; IEEE NaN is modeled by
  `none` in `Flt := Option Rat`, with NaN-propagating arithmetic and
  NaN-comparisons-are-false semantics, which is exactly what decides the
  claims involving empty datasets.
* The script's side effects (directory creation, file read, console prints,
  image saves, text writes) are modeled as an explicit effect trace; the
  script either completes (`Except.ok`) or raises (`Except.error`).
* Library calls (`pandas` mean/median, the fixed-point string formatter)
  are modeled by executable Lean functions with the library's documented
  semantics.
-/

/- Batteries seals the `Rat` arithmetic operations as irreducible, which
blocks `decide`/`rfl` evaluation of concrete rational arithmetic; re-open
them for this file so concrete runs can be checked by the kernel. -/
attribute [local semireducible] Rat.mul Rat.add Rat.sub Rat.inv

namespace Analysis

/-- A Python float: `some q` is the (exactly represented) value `q`,
`none` is IEEE NaN. -/
abbrev Flt := Option ℚ

/-- Float subtraction; NaN propagates. -/
def fsub : Flt → Flt → Flt
  | some a, some b => some (a - b)
  | _, _ => none

/-- Float absolute value; NaN propagates. -/
def fabs : Flt → Flt
  | some a => some (abs a)
  | none => none

/-- Float `>`: every comparison involving NaN is false (IEEE semantics,
exactly what Python's `>` does). -/
def fgt : Flt → Flt → Bool
  | some a, some b => decide (b < a)
  | _, _ => false

/-! ### Configuration constants (lines 20-24 of `analysis.py`) -/

def DATA_PATH : String := "quarterly_cac.csv"

def FIG_DIR : String := "figures"

def BENCHMARK : ℚ := 150

def REQUIRED_MEAN : ℚ := 22956 / 100

def EMAIL : String := "23f3001359@ds.study.iitm.ac.in"

/-- The tolerance `1e-6` of line 47. -/
def TOL : ℚ := 1 / 1000000

/-! ### Metrics (lines 38-39): models of `pd.Series(xs).mean()` and
`pd.Series(xs).median()`; both return NaN on an empty series. -/

/-- `pd.Series(xs).mean()`: arithmetic mean, NaN when empty. -/
def seriesMean (xs : List ℚ) : Flt :=
  if xs.length = 0 then none else some (xs.sum / (xs.length : ℚ))

/-- `pd.Series(xs).median()`: sort the values; the middle element for an
odd count, the average of the two central elements for an even count;
NaN when empty. -/
def seriesMedian (xs : List ℚ) : Flt :=
  let s := List.insertionSort (fun a b => a ≤ b) xs
  if s.length = 0 then none
  else if s.length % 2 = 1 then some (s.getD (s.length / 2) 0)
  else some ((s.getD (s.length / 2 - 1) 0 + s.getD (s.length / 2) 0) / 2)

/-! ### String formatting: model of the Python `:.2f` fixed-point
formatter, which rounds the value to two decimals with ties to even. -/

/-- Round a rational to the nearest integer, ties to even. -/
def roundHalfEven (x : ℚ) : ℤ :=
  let n := ⌊x⌋
  let frac := x - (n : ℚ)
  if frac < 1 / 2 then n
  else if 1 / 2 < frac then n + 1
  else if n % 2 = 0 then n else n + 1

/-- Decimal digits of `n` (most significant first), with `fuel` bounding
the recursion depth; empty for `n = 0`. -/
def natReprAux : ℕ → ℕ → List Char
  | 0, _ => []
  | fuel + 1, n =>
    if n = 0 then []
    else natReprAux fuel (n / 10) ++ [Char.ofNat (48 + n % 10)]

/-- Decimal representation of a natural number. -/
def natRepr (n : ℕ) : String :=
  if n = 0 then "0" else String.mk (natReprAux n n)

/-- Left-pad a two-digit fractional part with a zero. -/
def pad2 (n : ℕ) : String :=
  if n < 10 then "0" ++ natRepr n else natRepr n

/-- Model of Python `f"{q:.2f}"` for a numeric (non-NaN) value. -/
def fmtFixed2 (q : ℚ) : String :=
  let r := roundHalfEven (q * 100)
  let sign := if r < 0 then "-" else ""
  let a := r.natAbs
  sign ++ natRepr (a / 100) ++ "." ++ pad2 (a % 100)

/-- Model of Python `f"{x:.2f}"` on a float: NaN formats as `"nan"`. -/
def fmtFlt2 : Flt → String
  | none => "nan"
  | some q => fmtFixed2 q

/-! ### Effects and chart data -/

/-- The data-bearing content of a rendered chart. -/
inductive Chart
  /-- Line chart: x labels, y values, series label, horizontal benchmark
  line value and its legend label (lines 53-62). -/
  | line (xs : List String) (ys : List ℚ) (seriesLabel : String)
      (bench : ℚ) (benchLabel : String)
  /-- Bar chart: category labels, bar heights and the textual value
  annotation above each bar (lines 69-79). -/
  | bar (labels : List String) (values : List Flt) (annots : List String)
  deriving DecidableEq

/-- One observable side effect of the script, in program order. -/
inductive Effect
  | mkdir (dir : String)
  | readCsv (path : String)
  | print (line : String)
  | savePng (path : String) (chart : Chart)
  | writeText (path : String) (content : String)
  deriving DecidableEq

/-- Parsed input file: the header columns, and the rows restricted to the
`quarter` (string) and `cac` (numeric, already parsed) fields. -/
structure InputFile where
  columns : List String
  rows : List (String × ℚ)
  deriving DecidableEq

/-- The summary file content (f-string of lines 88-100). -/
def summaryText (n : ℕ) (mean median : Flt) : String :=
  "CAC Analysis Summary\n" ++
  "--------------------\n" ++
  "Rows analyzed: " ++ toString n ++ "\n" ++
  "Average CAC: " ++ fmtFlt2 mean ++ "\n" ++
  "Median CAC: " ++ fmtFlt2 median ++ "\n" ++
  "Industry benchmark: " ++ fmtFixed2 BENCHMARK ++ "\n" ++
  "\n" ++
  "Key insight:\n" ++
  "- Current average CAC (" ++ fmtFlt2 mean ++
  ") is higher than the industry benchmark (" ++ fmtFixed2 BENCHMARK ++
  ").\n" ++
  "- Recommended solution: optimize digital marketing channels (reallocate spend to organic/referral, improve conversion funnel, A/B test landing pages, etc).\n" ++
  "\n" ++
  "Contact for verification: " ++ EMAIL ++ "\n"

/-- Line 31's exception message. -/
def missingColsMsg : String :=
  "CSV must contain \x27quarter\x27 and \x27cac\x27 columns"

/-- Line 48's console warning. -/
def warningLine : String :=
  "WARNING: computed mean does not equal REQUIRED_MEAN (229.56)."

/-- Line 50's console confirmation. -/
def verifiedLine : String :=
  "Verified: computed mean equals required README value 229.56"

def trendPath : String := "figures/cac_trend.png"

def cmpPath : String := "figures/cac_benchmark_comparison.png"

/-- The whole script, top to bottom: the trace of effects it performs and
whether it completed or raised. Mirrors `analysis.py` line by line. -/
def run (input : InputFile) : List Effect × Except String Unit :=
  let pre := [Effect.mkdir FIG_DIR, Effect.readCsv DATA_PATH]
  if "quarter" ∉ input.columns ∨ "cac" ∉ input.columns then
    (pre, Except.error missingColsMsg)
  else
    let quarters := input.rows.map Prod.fst
    let cacs := input.rows.map Prod.snd
    let mean_cac := seriesMean cacs
    let median_cac := seriesMedian cacs
    let verifLine :=
      if fgt (fabs (fsub mean_cac (some REQUIRED_MEAN))) (some TOL) then
        warningLine
      else
        verifiedLine
    (pre ++
      [Effect.print ("Read " ++ toString input.rows.length ++ " rows from " ++ DATA_PATH),
       Effect.print ("Average CAC: " ++ fmtFlt2 mean_cac),
       Effect.print ("Median CAC: " ++ fmtFlt2 median_cac),
       Effect.print ("For verification: " ++ EMAIL),
       Effect.print verifLine,
       Effect.savePng trendPath
         (Chart.line quarters cacs "Company CAC" BENCHMARK
           ("Industry Benchmark (" ++ toString (roundHalfEven BENCHMARK).natAbs ++ ")")),
       Effect.print ("Saved CAC trend figure to: " ++ trendPath),
       Effect.savePng cmpPath
         (Chart.bar ["Company Avg CAC", "Industry Benchmark"]
           [mean_cac, some BENCHMARK]
           [fmtFlt2 mean_cac, fmtFlt2 (some BENCHMARK)]),
       Effect.print ("Saved benchmark comparison figure to: " ++ cmpPath),
       Effect.writeText "analysis_summary.txt"
         (summaryText input.rows.length mean_cac median_cac),
       Effect.print "Wrote analysis_summary.txt",
       Effect.print "Analysis complete."],
     Except.ok ())

/-- `e` writes a file artifact (an image save or a text write). -/
def Effect.isFileOutput : Effect → Bool
  | Effect.savePng _ _ => true
  | Effect.writeText _ _ => true
  | _ => false

/-- `needle` occurs contiguously inside `hay`. -/
def ContainsSub (needle hay : String) : Prop :=
  ∃ a b : String, hay = a ++ (needle ++ b)

theorem containsSub_appL {needle hay : String} (a : String)
    (h : ContainsSub needle hay) : ContainsSub needle (a ++ hay) := by
  obtain ⟨x, y, rfl⟩ := h
  exact ⟨a ++ x, y, by rw [String.append_assoc]⟩

theorem containsSub_appR {needle hay : String} (b : String)
    (h : ContainsSub needle hay) : ContainsSub needle (hay ++ b) := by
  obtain ⟨x, y, rfl⟩ := h
  exact ⟨x, y ++ b, by rw [String.append_assoc, String.append_assoc]⟩

theorem containsSub_self (needle : String) : ContainsSub needle needle :=
  ⟨"", "", by rw [String.empty_append, String.append_empty]⟩

/-- The computed mean is a number within the line-47 tolerance of the
hard-coded expected mean (a NaN mean is never within tolerance). -/
def withinTol (m : Flt) : Prop :=
  ∃ q : ℚ, m = some q ∧ abs (q - REQUIRED_MEAN) ≤ TOL

/-- `s` is a fixed-point numeral with exactly two digits after the decimal
point: an optional minus sign, a nonempty run of digits, a dot, then
exactly two digits. -/
def IsFixed2 (s : String) : Prop :=
  ∃ (sign intPart fracPart : String),
    s = sign ++ (intPart ++ ("." ++ fracPart)) ∧
    (sign = "" ∨ sign = "-") ∧
    intPart.data ≠ [] ∧ (∀ c ∈ intPart.data, c.isDigit = true) ∧
    fracPart.length = 2 ∧ (∀ c ∈ fracPart.data, c.isDigit = true)

theorem natReprAux_digits (fuel n : ℕ) :
    ∀ c ∈ natReprAux fuel n, c.isDigit = true := by
  have hd : ∀ k, k < 10 → (Char.ofNat (48 + k)).isDigit = true := by decide
  induction fuel generalizing n with
  | zero => intro c hc; simp [natReprAux] at hc
  | succ f ih =>
    intro c hc
    by_cases h0 : n = 0
    · simp [natReprAux, h0] at hc
    · simp only [natReprAux, h0, if_false, List.mem_append, List.mem_singleton] at hc
      rcases hc with hc | rfl
      · exact ih _ _ hc
      · exact hd _ (Nat.mod_lt _ (by omega))

theorem natRepr_digits (n : ℕ) : ∀ c ∈ (natRepr n).data, c.isDigit = true := by
  by_cases h0 : n = 0
  · simp [natRepr, h0]
  · simpa [natRepr, h0] using natReprAux_digits n n

theorem natRepr_ne_nil (n : ℕ) : (natRepr n).data ≠ [] := by
  by_cases h0 : n = 0
  · simp [natRepr, h0]
  · obtain ⟨m, rfl⟩ := Nat.exists_eq_succ_of_ne_zero h0
    simp [natRepr, natReprAux]

theorem pad2_shape (n : ℕ) (h : n < 100) :
    (pad2 n).length = 2 ∧ (∀ c ∈ (pad2 n).data, c.isDigit = true) := by
  revert h
  revert n
  decide

/-- The `:.2f` model always prints exactly two digits after the point. -/
theorem fmtFixed2_isFixed2 (q : ℚ) : IsFixed2 (fmtFixed2 q) := by
  rw [fmtFixed2]
  set r := roundHalfEven (q * 100) with hr
  refine ⟨if r < 0 then "-" else "", natRepr (r.natAbs / 100), pad2 (r.natAbs % 100),
    ?_, ?_, natRepr_ne_nil _, natRepr_digits _, ?_, ?_⟩
  · simp [String.append_assoc]
  · split <;> simp
  · exact (pad2_shape _ (Nat.mod_lt _ (by omega))).1
  · exact (pad2_shape _ (Nat.mod_lt _ (by omega))).2

theorem summary_contains_avg (n : ℕ) (m md : Flt) :
    ContainsSub ("Average CAC: " ++ (fmtFlt2 m ++ "\n")) (summaryText n m md) := by
  refine ⟨"CAC Analysis Summary\n" ++ ("--------------------\n" ++ ("Rows analyzed: " ++ (toString n ++ "\n"))),
    "Median CAC: " ++ (fmtFlt2 md ++ ("\n" ++ ("Industry benchmark: " ++ (fmtFixed2 BENCHMARK ++ ("\n" ++ ("\n" ++ ("Key insight:\n" ++ ("- Current average CAC (" ++ (fmtFlt2 m ++ (") is higher than the industry benchmark (" ++ (fmtFixed2 BENCHMARK ++ (").\n" ++ ("- Recommended solution: optimize digital marketing channels (reallocate spend to organic/referral, improve conversion funnel, A/B test landing pages, etc).\n" ++ ("\n" ++ ("Contact for verification: " ++ (EMAIL ++ "\n")))))))))))))))), ?_⟩
  simp only [summaryText, String.append_assoc]

theorem summary_contains_median (n : ℕ) (m md : Flt) :
    ContainsSub ("Median CAC: " ++ (fmtFlt2 md ++ "\n")) (summaryText n m md) := by
  refine ⟨"CAC Analysis Summary\n" ++ ("--------------------\n" ++ ("Rows analyzed: " ++ (toString n ++ ("\n" ++ ("Average CAC: " ++ (fmtFlt2 m ++ "\n")))))),
    "Industry benchmark: " ++ (fmtFixed2 BENCHMARK ++ ("\n" ++ ("\n" ++ ("Key insight:\n" ++ ("- Current average CAC (" ++ (fmtFlt2 m ++ (") is higher than the industry benchmark (" ++ (fmtFixed2 BENCHMARK ++ (").\n" ++ ("- Recommended solution: optimize digital marketing channels (reallocate spend to organic/referral, improve conversion funnel, A/B test landing pages, etc).\n" ++ ("\n" ++ ("Contact for verification: " ++ (EMAIL ++ "\n"))))))))))))), ?_⟩
  simp only [summaryText, String.append_assoc]

theorem summary_contains_benchmark (n : ℕ) (m md : Flt) :
    ContainsSub ("Industry benchmark: " ++ (fmtFixed2 BENCHMARK ++ "\n")) (summaryText n m md) := by
  refine ⟨"CAC Analysis Summary\n" ++ ("--------------------\n" ++ ("Rows analyzed: " ++ (toString n ++ ("\n" ++ ("Average CAC: " ++ (fmtFlt2 m ++ ("\n" ++ ("Median CAC: " ++ (fmtFlt2 md ++ "\n"))))))))),
    "\n" ++ ("Key insight:\n" ++ ("- Current average CAC (" ++ (fmtFlt2 m ++ (") is higher than the industry benchmark (" ++ (fmtFixed2 BENCHMARK ++ (").\n" ++ ("- Recommended solution: optimize digital marketing channels (reallocate spend to organic/referral, improve conversion funnel, A/B test landing pages, etc).\n" ++ ("\n" ++ ("Contact for verification: " ++ (EMAIL ++ "\n")))))))))), ?_⟩
  simp only [summaryText, String.append_assoc]

theorem summary_insight_static (n : ℕ) (m md : Flt) :
    ContainsSub ("- Current average CAC (" ++ (fmtFlt2 m ++
        (") is higher than the industry benchmark (" ++
          (fmtFixed2 BENCHMARK ++ ").\n"))))
      (summaryText n m md) := by
  refine ⟨"CAC Analysis Summary\n" ++ ("--------------------\n" ++ ("Rows analyzed: " ++ (toString n ++ ("\n" ++ ("Average CAC: " ++ (fmtFlt2 m ++ ("\n" ++ ("Median CAC: " ++ (fmtFlt2 md ++ ("\n" ++ ("Industry benchmark: " ++ (fmtFixed2 BENCHMARK ++ ("\n" ++ ("\n" ++ "Key insight:\n")))))))))))))),
    "- Recommended solution: optimize digital marketing channels (reallocate spend to organic/referral, improve conversion funnel, A/B test landing pages, etc).\n" ++ ("\n" ++ ("Contact for verification: " ++ (EMAIL ++ "\n"))), ?_⟩
  simp only [summaryText, String.append_assoc]

/-- On a valid input (both required columns present) the run completes and
its effect trace is this explicit fourteen-effect sequence. -/
theorem run_valid (i : InputFile) (hq : "quarter" ∈ i.columns)
    (hc : "cac" ∈ i.columns) :
    run i =
      ([Effect.mkdir FIG_DIR, Effect.readCsv DATA_PATH,
        Effect.print ("Read " ++ toString i.rows.length ++ " rows from " ++ DATA_PATH),
        Effect.print ("Average CAC: " ++ fmtFlt2 (seriesMean (i.rows.map Prod.snd))),
        Effect.print ("Median CAC: " ++ fmtFlt2 (seriesMedian (i.rows.map Prod.snd))),
        Effect.print ("For verification: " ++ EMAIL),
        Effect.print (if fgt (fabs (fsub (seriesMean (i.rows.map Prod.snd))
            (some REQUIRED_MEAN))) (some TOL) then warningLine else verifiedLine),
        Effect.savePng trendPath (Chart.line (i.rows.map Prod.fst) (i.rows.map Prod.snd)
          "Company CAC" BENCHMARK
          ("Industry Benchmark (" ++ toString (roundHalfEven BENCHMARK).natAbs ++ ")")),
        Effect.print ("Saved CAC trend figure to: " ++ trendPath),
        Effect.savePng cmpPath (Chart.bar ["Company Avg CAC", "Industry Benchmark"]
          [seriesMean (i.rows.map Prod.snd), some BENCHMARK]
          [fmtFlt2 (seriesMean (i.rows.map Prod.snd)), fmtFlt2 (some BENCHMARK)]),
        Effect.print ("Saved benchmark comparison figure to: " ++ cmpPath),
        Effect.writeText "analysis_summary.txt"
          (summaryText i.rows.length (seriesMean (i.rows.map Prod.snd))
            (seriesMedian (i.rows.map Prod.snd))),
        Effect.print "Wrote analysis_summary.txt",
        Effect.print "Analysis complete."],
       Except.ok ()) := by
  have h : ¬("quarter" ∉ i.columns ∨ "cac" ∉ i.columns) := by simp [hq, hc]
  unfold run
  rw [if_neg h]
  rfl

/-! ## Claims -/

/-- C1: for every dataset of `n ≥ 1` cost values, the computed mean equals
`sum / n`, and the computed median is the standard order statistic: against
any sorted rearrangement `s` of the values, the middle element for odd `n`
and the average of the two central elements for even `n`. -/
theorem mean_median_spec (xs s : List ℚ) (hne : xs ≠ [])
    (hperm : s.Perm xs) (hsorted : s.Sorted (fun a b => a ≤ b)) :
    seriesMean xs = some (xs.sum / (xs.length : ℚ)) ∧
    seriesMedian xs =
      some (if xs.length % 2 = 1 then s.getD (xs.length / 2) 0
            else (s.getD (xs.length / 2 - 1) 0 + s.getD (xs.length / 2) 0) / 2) := by
  have hlen0 : xs.length ≠ 0 := by
    simpa [List.length_eq_zero] using hne
  constructor
  · simp [seriesMean, hlen0]
  · have ht : List.insertionSort (fun a b => a ≤ b) xs = s :=
      List.eq_of_perm_of_sorted
        ((List.perm_insertionSort _ xs).trans hperm.symm)
        (List.sorted_insertionSort _ xs) hsorted
    have hl : s.length = xs.length := hperm.length_eq
    simp only [seriesMedian, ht, hl]
    rw [if_neg hlen0]
    split <;> rfl

/-- Witness for C1 at the spec's four-quarter dataset. -/
theorem mean_median_spec_witness :
    seriesMean [100, 150, 200, 250] =
      some (([100, 150, 200, 250] : List ℚ).sum /
        ((([100, 150, 200, 250] : List ℚ).length : ℕ) : ℚ)) ∧
    seriesMedian [100, 150, 200, 250] =
      some (if ([100, 150, 200, 250] : List ℚ).length % 2 = 1
            then ([100, 150, 200, 250] : List ℚ).getD
              (([100, 150, 200, 250] : List ℚ).length / 2) 0
            else (([100, 150, 200, 250] : List ℚ).getD
                (([100, 150, 200, 250] : List ℚ).length / 2 - 1) 0 +
              ([100, 150, 200, 250] : List ℚ).getD
                (([100, 150, 200, 250] : List ℚ).length / 2) 0) / 2) :=
  mean_median_spec [100, 150, 200, 250] [100, 150, 200, 250]
    (by decide) (List.Perm.refl _) (by decide)

/-- C2: when the header lacks the `quarter` or the `cac` column, the run
raises the validation error, and its effect trace is exactly the directory
creation and the file read: no metric print, no chart save, no text write
ever happens. -/
theorem missing_column_fails (i : InputFile)
    (h : "quarter" ∉ i.columns ∨ "cac" ∉ i.columns) :
    (run i).1 = [Effect.mkdir FIG_DIR, Effect.readCsv DATA_PATH] ∧
    (run i).2 = Except.error missingColsMsg := by
  unfold run
  rw [if_pos h]
  exact ⟨rfl, rfl⟩

/-- Witness for C2 on a header with only a `quarter` column. -/
theorem missing_column_fails_witness :
    (run ⟨["quarter"], []⟩).1 = [Effect.mkdir FIG_DIR, Effect.readCsv DATA_PATH] ∧
    (run ⟨["quarter"], []⟩).2 = Except.error missingColsMsg :=
  missing_column_fails ⟨["quarter"], []⟩ (by decide)

/-- C4, counterexample: on a failed run (missing `cac` column) the process
does abort with the validation error, yet the `figures` output directory is
still created, because `os.makedirs` on line 26 runs before validation. -/
theorem mkdir_on_failed_run :
    (run ⟨["quarter"], []⟩).2 = Except.error missingColsMsg ∧
    Effect.mkdir FIG_DIR ∈ (run ⟨["quarter"], []⟩).1 := by
  constructor
  · rfl
  · decide

/-- C4 as amended: a run with a missing required column aborts with the
validation error and produces no file artifact (no image and no text file),
but it does create the `figures` output directory first. -/
theorem missing_column_aborts_after_mkdir (i : InputFile)
    (h : "quarter" ∉ i.columns ∨ "cac" ∉ i.columns) :
    (run i).2 = Except.error missingColsMsg ∧
    (∀ e ∈ (run i).1, e.isFileOutput = false) ∧
    Effect.mkdir FIG_DIR ∈ (run i).1 := by
  unfold run
  rw [if_pos h]
  refine ⟨rfl, ?_, by decide⟩
  intro e he
  simp only [List.mem_cons, List.not_mem_nil, or_false] at he
  rcases he with rfl | rfl <;> rfl

/-- Witness for the amended C4. -/
theorem missing_column_aborts_after_mkdir_witness :
    (run ⟨["cac"], []⟩).2 = Except.error missingColsMsg ∧
    (∀ e ∈ (run ⟨["cac"], []⟩).1, e.isFileOutput = false) ∧
    Effect.mkdir FIG_DIR ∈ (run ⟨["cac"], []⟩).1 :=
  missing_column_aborts_after_mkdir ⟨["cac"], []⟩ (by decide)

/-- C3, counterexample: for the dataset `[100]` the mean `100` is below the
`150` benchmark, yet the written summary's insight line still reads
"is higher than the industry benchmark": the wording is a static string,
not chosen by any sign check. -/
theorem insight_static_counterexample :
    seriesMean [(100 : ℚ)] = some 100 ∧ (100 : ℚ) < BENCHMARK ∧
    Effect.writeText "analysis_summary.txt"
        (summaryText 1 (some 100) (some 100)) ∈
      (run ⟨["quarter", "cac"], [("Q1", 100)]⟩).1 ∧
    ContainsSub ") is higher than the industry benchmark ("
      (summaryText 1 (some 100) (some 100)) := by
  refine ⟨by decide, by decide, ?_, ?_⟩
  · rw [run_valid ⟨["quarter", "cac"], [("Q1", 100)]⟩ (by decide) (by decide)]
    have h1 : seriesMean [(100 : ℚ)] = some 100 := by decide
    have h2 : seriesMedian [(100 : ℚ)] = some 100 := by decide
    simp only [List.map, h1, h2]
    simp
  · have h := summary_insight_static 1 (some 100) (some 100)
    obtain ⟨a, b, hab⟩ := h
    exact ⟨a ++ ("- Current average CAC (" ++ fmtFlt2 (some 100)),
      fmtFixed2 BENCHMARK ++ (").\n" ++ b), by
        rw [hab]
        simp [String.append_assoc]⟩

/-- C3 as amended: the insight line of the summary is one static sentence:
for every valid input, whatever the computed mean, the run writes a summary
whose insight line states the average is higher than the benchmark; no
sign check selects the wording. -/
theorem insight_line_static (i : InputFile) (hq : "quarter" ∈ i.columns)
    (hc : "cac" ∈ i.columns) :
    Effect.writeText "analysis_summary.txt"
        (summaryText i.rows.length (seriesMean (i.rows.map Prod.snd))
          (seriesMedian (i.rows.map Prod.snd))) ∈ (run i).1 ∧
    ContainsSub ("- Current average CAC (" ++
        (fmtFlt2 (seriesMean (i.rows.map Prod.snd)) ++
          (") is higher than the industry benchmark (" ++
            (fmtFixed2 BENCHMARK ++ ").\n"))))
      (summaryText i.rows.length (seriesMean (i.rows.map Prod.snd))
        (seriesMedian (i.rows.map Prod.snd))) := by
  refine ⟨?_, summary_insight_static _ _ _⟩
  rw [run_valid i hq hc]
  simp

/-- Witness for the amended C3 at the one-row dataset `[100]`. -/
theorem insight_line_static_witness :
    Effect.writeText "analysis_summary.txt"
        (summaryText (InputFile.mk ["quarter", "cac"] [("Q1", 100)]).rows.length
          (seriesMean ((InputFile.mk ["quarter", "cac"] [("Q1", 100)]).rows.map Prod.snd))
          (seriesMedian ((InputFile.mk ["quarter", "cac"] [("Q1", 100)]).rows.map Prod.snd))) ∈
      (run (InputFile.mk ["quarter", "cac"] [("Q1", 100)])).1 ∧
    ContainsSub ("- Current average CAC (" ++
        (fmtFlt2 (seriesMean ((InputFile.mk ["quarter", "cac"] [("Q1", 100)]).rows.map Prod.snd)) ++
          (") is higher than the industry benchmark (" ++
            (fmtFixed2 BENCHMARK ++ ").\n"))))
      (summaryText (InputFile.mk ["quarter", "cac"] [("Q1", 100)]).rows.length
        (seriesMean ((InputFile.mk ["quarter", "cac"] [("Q1", 100)]).rows.map Prod.snd))
        (seriesMedian ((InputFile.mk ["quarter", "cac"] [("Q1", 100)]).rows.map Prod.snd))) :=
  insight_line_static (InputFile.mk ["quarter", "cac"] [("Q1", 100)]) (by decide) (by decide)

/-- C5 as amended: for every valid input with at least one data row, the
console verification line (the seventh effect) prints the "Verified"
message if and only if the computed mean is within `1e-6` of the hard-coded
`229.56`, and prints the warning otherwise. (With zero rows the mean is NaN
and the NaN comparison makes the check print "Verified"; see the
counterexample.) -/
theorem verification_iff (i : InputFile) (hq : "quarter" ∈ i.columns)
    (hc : "cac" ∈ i.columns) (hne : i.rows ≠ []) :
    ((run i).1[6]? = some (Effect.print verifiedLine) ↔
      withinTol (seriesMean (i.rows.map Prod.snd))) ∧
    ((run i).1[6]? = some (Effect.print warningLine) ↔
      ¬ withinTol (seriesMean (i.rows.map Prod.snd))) := by
  have hlen : (i.rows.map Prod.snd).length ≠ 0 := by
    simp only [List.length_map, ne_eq, List.length_eq_zero]
    exact hne
  have hm : seriesMean (i.rows.map Prod.snd) =
      some ((i.rows.map Prod.snd).sum / ((i.rows.map Prod.snd).length : ℚ)) := by
    rw [seriesMean, if_neg hlen]
  set v := (i.rows.map Prod.snd).sum / ((i.rows.map Prod.snd).length : ℚ) with hv
  have hwt : withinTol (some v) ↔ abs (v - REQUIRED_MEAN) ≤ TOL := by
    constructor
    · rintro ⟨q, hq1, hq2⟩
      rw [Option.some.injEq] at hq1
      rwa [hq1]
    · intro h
      exact ⟨v, rfl, h⟩
  rw [run_valid i hq hc, hm]
  simp only [List.getElem?_cons_succ, List.getElem?_cons_zero, hwt]
  have hred : fgt (fabs (fsub (some v) (some REQUIRED_MEAN))) (some TOL) =
      decide (TOL < abs (v - REQUIRED_MEAN)) := rfl
  rw [hred]
  simp only [decide_eq_true_eq, Option.some.injEq, Effect.print.injEq]
  by_cases hcmp : TOL < abs (v - REQUIRED_MEAN)
  · rw [if_pos hcmp]
    exact ⟨iff_of_false (by decide) (not_le.mpr hcmp),
      iff_of_true rfl (not_le.mpr hcmp)⟩
  · rw [if_neg hcmp]
    exact ⟨iff_of_true rfl (not_lt.mp hcmp),
      iff_of_false (by decide) (fun hn => hn (not_lt.mp hcmp))⟩

/-- Witness for the amended C5 at the one-row dataset `[229.56]` (the
spec's "Verified" example). -/
theorem verification_iff_witness :
    (((run (InputFile.mk ["quarter", "cac"] [("Q1", 22956 / 100)])).1[6]? =
        some (Effect.print verifiedLine) ↔
      withinTol (seriesMean ((InputFile.mk ["quarter", "cac"]
        [("Q1", 22956 / 100)]).rows.map Prod.snd))) ∧
    ((run (InputFile.mk ["quarter", "cac"] [("Q1", 22956 / 100)])).1[6]? =
        some (Effect.print warningLine) ↔
      ¬ withinTol (seriesMean ((InputFile.mk ["quarter", "cac"]
        [("Q1", 22956 / 100)]).rows.map Prod.snd)))) :=
  verification_iff (InputFile.mk ["quarter", "cac"] [("Q1", 22956 / 100)])
    (by decide) (by decide) (by decide)

/-- C5, counterexample: on a valid input with zero rows the mean is NaN,
which is not within `1e-6` of `229.56`, yet the run prints the "Verified"
message, because `abs(nan - 229.56) > 1e-6` is false under IEEE
comparison semantics. -/
theorem verified_on_nan :
    (run ⟨["quarter", "cac"], []⟩).1[6]? = some (Effect.print verifiedLine) ∧
    ¬ withinTol (seriesMean ([] : List ℚ)) := by
  constructor
  · rfl
  · rintro ⟨q, hq1, -⟩
    exact Option.noConfusion hq1

/-- C6: a mean mismatch against the hard-coded `229.56` is non-fatal: on
any valid input on which the mismatch condition of line 47 holds, the run
completes, prints the console warning, and still saves both chart images
and writes the text summary. -/
theorem mismatch_nonfatal (i : InputFile) (hq : "quarter" ∈ i.columns)
    (hc : "cac" ∈ i.columns)
    (hmis : fgt (fabs (fsub (seriesMean (i.rows.map Prod.snd))
      (some REQUIRED_MEAN))) (some TOL) = true) :
    (run i).2 = Except.ok () ∧
    Effect.print warningLine ∈ (run i).1 ∧
    (∃ c, Effect.savePng trendPath c ∈ (run i).1) ∧
    (∃ c, Effect.savePng cmpPath c ∈ (run i).1) ∧
    (∃ s, Effect.writeText "analysis_summary.txt" s ∈ (run i).1) := by
  rw [run_valid i hq hc]
  rw [if_pos hmis]
  refine ⟨rfl, by simp,
    ⟨Chart.line (i.rows.map Prod.fst) (i.rows.map Prod.snd) "Company CAC" BENCHMARK
      ("Industry Benchmark (" ++ toString (roundHalfEven BENCHMARK).natAbs ++ ")"), by simp⟩,
    ⟨Chart.bar ["Company Avg CAC", "Industry Benchmark"]
      [seriesMean (i.rows.map Prod.snd), some BENCHMARK]
      [fmtFlt2 (seriesMean (i.rows.map Prod.snd)), fmtFlt2 (some BENCHMARK)], by simp⟩,
    ⟨summaryText i.rows.length (seriesMean (i.rows.map Prod.snd))
      (seriesMedian (i.rows.map Prod.snd)), by simp⟩⟩

/-- Witness for C6 at the spec's four-quarter dataset (mean 175, a
mismatch). -/
theorem mismatch_nonfatal_witness :
    (run (InputFile.mk ["quarter", "cac"]
        [("Q1", 100), ("Q2", 150), ("Q3", 200), ("Q4", 250)])).2 = Except.ok () ∧
    Effect.print warningLine ∈ (run (InputFile.mk ["quarter", "cac"]
        [("Q1", 100), ("Q2", 150), ("Q3", 200), ("Q4", 250)])).1 ∧
    (∃ c, Effect.savePng trendPath c ∈ (run (InputFile.mk ["quarter", "cac"]
        [("Q1", 100), ("Q2", 150), ("Q3", 200), ("Q4", 250)])).1) ∧
    (∃ c, Effect.savePng cmpPath c ∈ (run (InputFile.mk ["quarter", "cac"]
        [("Q1", 100), ("Q2", 150), ("Q3", 200), ("Q4", 250)])).1) ∧
    (∃ s, Effect.writeText "analysis_summary.txt" s ∈ (run (InputFile.mk ["quarter", "cac"]
        [("Q1", 100), ("Q2", 150), ("Q3", 200), ("Q4", 250)])).1) :=
  mismatch_nonfatal (InputFile.mk ["quarter", "cac"]
      [("Q1", 100), ("Q2", 150), ("Q3", 200), ("Q4", 250)])
    (by decide) (by decide) (by decide)

/-- C7 as amended: on every valid input with at least one data row, the
written summary contains "Average CAC: ", "Median CAC: " and
"Industry benchmark: ", each immediately followed by the corresponding
value formatted with exactly two digits after the decimal point. (With
zero rows the mean and median format as "nan"; see the counterexample.) -/
theorem summary_two_decimals (i : InputFile) (hq : "quarter" ∈ i.columns)
    (hc : "cac" ∈ i.columns) (hne : i.rows ≠ []) :
    ∃ vm vmd : ℚ,
      seriesMean (i.rows.map Prod.snd) = some vm ∧
      seriesMedian (i.rows.map Prod.snd) = some vmd ∧
      Effect.writeText "analysis_summary.txt"
        (summaryText i.rows.length (some vm) (some vmd)) ∈ (run i).1 ∧
      ContainsSub ("Average CAC: " ++ (fmtFixed2 vm ++ "\n"))
        (summaryText i.rows.length (some vm) (some vmd)) ∧
      ContainsSub ("Median CAC: " ++ (fmtFixed2 vmd ++ "\n"))
        (summaryText i.rows.length (some vm) (some vmd)) ∧
      ContainsSub ("Industry benchmark: " ++ (fmtFixed2 BENCHMARK ++ "\n"))
        (summaryText i.rows.length (some vm) (some vmd)) ∧
      IsFixed2 (fmtFixed2 vm) ∧ IsFixed2 (fmtFixed2 vmd) ∧
      IsFixed2 (fmtFixed2 BENCHMARK) := by
  have hlen : (i.rows.map Prod.snd).length ≠ 0 := by
    simp only [List.length_map, ne_eq, List.length_eq_zero]
    exact hne
  have hm : seriesMean (i.rows.map Prod.snd) =
      some ((i.rows.map Prod.snd).sum / ((i.rows.map Prod.snd).length : ℚ)) := by
    rw [seriesMean, if_neg hlen]
  have hmd : ∃ vmd, seriesMedian (i.rows.map Prod.snd) = some vmd := by
    simp only [seriesMedian]
    have hl : (List.insertionSort (fun a b => a ≤ b) (i.rows.map Prod.snd)).length ≠ 0 := by
      rw [List.length_insertionSort]
      exact hlen
    rw [if_neg hl]
    split
    · exact ⟨_, rfl⟩
    · exact ⟨_, rfl⟩
  obtain ⟨vmd, hvmd⟩ := hmd
  refine ⟨_, vmd, hm, hvmd, ?_, summary_contains_avg _ _ _,
    summary_contains_median _ _ _, summary_contains_benchmark _ _ _,
    fmtFixed2_isFixed2 _, fmtFixed2_isFixed2 _, fmtFixed2_isFixed2 _⟩
  rw [run_valid i hq hc, hm, hvmd]
  simp

/-- Witness for the amended C7 at the one-row dataset `[100]`. -/
theorem summary_two_decimals_witness :
    ∃ vm vmd : ℚ,
      seriesMean ((InputFile.mk ["quarter", "cac"] [("Q1", 100)]).rows.map Prod.snd) = some vm ∧
      seriesMedian ((InputFile.mk ["quarter", "cac"] [("Q1", 100)]).rows.map Prod.snd) = some vmd ∧
      Effect.writeText "analysis_summary.txt"
        (summaryText (InputFile.mk ["quarter", "cac"] [("Q1", 100)]).rows.length
          (some vm) (some vmd)) ∈
        (run (InputFile.mk ["quarter", "cac"] [("Q1", 100)])).1 ∧
      ContainsSub ("Average CAC: " ++ (fmtFixed2 vm ++ "\n"))
        (summaryText (InputFile.mk ["quarter", "cac"] [("Q1", 100)]).rows.length
          (some vm) (some vmd)) ∧
      ContainsSub ("Median CAC: " ++ (fmtFixed2 vmd ++ "\n"))
        (summaryText (InputFile.mk ["quarter", "cac"] [("Q1", 100)]).rows.length
          (some vm) (some vmd)) ∧
      ContainsSub ("Industry benchmark: " ++ (fmtFixed2 BENCHMARK ++ "\n"))
        (summaryText (InputFile.mk ["quarter", "cac"] [("Q1", 100)]).rows.length
          (some vm) (some vmd)) ∧
      IsFixed2 (fmtFixed2 vm) ∧ IsFixed2 (fmtFixed2 vmd) ∧
      IsFixed2 (fmtFixed2 BENCHMARK) :=
  summary_two_decimals (InputFile.mk ["quarter", "cac"] [("Q1", 100)])
    (by decide) (by decide) (by decide)

/-- C7, counterexample: a valid input with zero rows still runs to
completion, and its summary shows "Average CAC: nan": the value after the
"Average CAC: " label is "nan", which is not a numeral with two decimal
places. -/
theorem summary_nan_counterexample :
    Effect.writeText "analysis_summary.txt" (summaryText 0 none none) ∈
      (run ⟨["quarter", "cac"], []⟩).1 ∧
    seriesMean ([] : List ℚ) = none ∧ fmtFlt2 none = "nan" ∧
    ContainsSub ("Average CAC: " ++ (fmtFlt2 none ++ "\n")) (summaryText 0 none none) ∧
    ¬ IsFixed2 "nan" := by
  refine ⟨by decide, rfl, rfl, summary_contains_avg 0 none none, ?_⟩
  rintro ⟨sign, ip, frac, heq, -, -, -, -, -⟩
  have hdot : '.' ∈ "nan".data := by
    rw [heq]
    simp [String.data_append]
  exact absurd hdot (by decide)

/-- C8: on every valid input the comparison chart saved to the benchmark
comparison path is a bar chart with exactly the two bars
`[company average, benchmark]` in that order, and the benchmark bar's
value is the fixed constant `150`, independent of the data. -/
theorem bar_chart_fixed (i : InputFile) (hq : "quarter" ∈ i.columns)
    (hc : "cac" ∈ i.columns) :
    Effect.savePng cmpPath
        (Chart.bar ["Company Avg CAC", "Industry Benchmark"]
          [seriesMean (i.rows.map Prod.snd), some BENCHMARK]
          [fmtFlt2 (seriesMean (i.rows.map Prod.snd)), fmtFlt2 (some BENCHMARK)]) ∈
      (run i).1 ∧
    (["Company Avg CAC", "Industry Benchmark"] : List String).length = 2 ∧
    ([seriesMean (i.rows.map Prod.snd), some BENCHMARK] : List Flt).length = 2 ∧
    BENCHMARK = 150 := by
  refine ⟨?_, rfl, rfl, rfl⟩
  rw [run_valid i hq hc]
  simp

/-- Witness for C8 at the one-row dataset `[100]`. -/
theorem bar_chart_fixed_witness :
    Effect.savePng cmpPath
        (Chart.bar ["Company Avg CAC", "Industry Benchmark"]
          [seriesMean ((InputFile.mk ["quarter", "cac"] [("Q1", 100)]).rows.map Prod.snd),
            some BENCHMARK]
          [fmtFlt2 (seriesMean ((InputFile.mk ["quarter", "cac"] [("Q1", 100)]).rows.map Prod.snd)),
            fmtFlt2 (some BENCHMARK)]) ∈
      (run (InputFile.mk ["quarter", "cac"] [("Q1", 100)])).1 ∧
    (["Company Avg CAC", "Industry Benchmark"] : List String).length = 2 ∧
    ([seriesMean ((InputFile.mk ["quarter", "cac"] [("Q1", 100)]).rows.map Prod.snd),
      some BENCHMARK] : List Flt).length = 2 ∧
    BENCHMARK = 150 :=
  bar_chart_fixed (InputFile.mk ["quarter", "cac"] [("Q1", 100)]) (by decide) (by decide)

/-- C9: the pipeline is deterministic: the run is a pure function of the
parsed input, so two runs on identical inputs produce identical effect
traces (console lines, chart data and summary text included) and identical
outcomes. -/
theorem run_deterministic (i j : InputFile) (h : i = j) : run i = run j := by
  rw [h]

/-- Witness for C9 at the one-row dataset `[100]`. -/
theorem run_deterministic_witness :
    run (InputFile.mk ["quarter", "cac"] [("Q1", 100)]) =
      run (InputFile.mk ["quarter", "cac"] [("Q1", 100)]) :=
  run_deterministic (InputFile.mk ["quarter", "cac"] [("Q1", 100)])
    (InputFile.mk ["quarter", "cac"] [("Q1", 100)]) rfl

/-- C10 as amended: on a valid input with both required columns and zero
data rows the run completes: mean and median are NaN, the NaN metrics are
printed, both charts are saved and the summary (with "nan" values) is
written; but the verification line prints "Verified", not the mismatch
warning, because the NaN comparison on line 47 is false. -/
theorem empty_rows_behavior (i : InputFile) (hq : "quarter" ∈ i.columns)
    (hc : "cac" ∈ i.columns) (hrows : i.rows = []) :
    (run i).2 = Except.ok () ∧
    seriesMean (i.rows.map Prod.snd) = none ∧
    seriesMedian (i.rows.map Prod.snd) = none ∧
    Effect.print ("Average CAC: " ++ fmtFlt2 none) ∈ (run i).1 ∧
    (run i).1[6]? = some (Effect.print verifiedLine) ∧
    (∃ c, Effect.savePng trendPath c ∈ (run i).1) ∧
    (∃ c, Effect.savePng cmpPath c ∈ (run i).1) ∧
    Effect.writeText "analysis_summary.txt" (summaryText 0 none none) ∈ (run i).1 ∧
    ContainsSub ("Average CAC: " ++ (fmtFlt2 none ++ "\n")) (summaryText 0 none none) := by
  obtain ⟨cols, rows⟩ := i
  simp only at hrows
  subst hrows
  have ht := run_valid ⟨cols, []⟩ hq hc
  have h1 : seriesMean [] = none := rfl
  have h2 : seriesMedian [] = none := rfl
  have h3 : fgt (fabs (fsub (seriesMean []) (some REQUIRED_MEAN))) (some TOL) = false := rfl
  refine ⟨by rw [ht], rfl, rfl, ?_, ?_, ?_, ?_, ?_, summary_contains_avg 0 none none⟩
  · rw [ht]
    simp [h1]
  · rw [ht]
    simp only [List.getElem?_cons_succ, List.getElem?_cons_zero, h3]
    rfl
  · exact ⟨Chart.line [] [] "Company CAC" BENCHMARK
      ("Industry Benchmark (" ++ toString (roundHalfEven BENCHMARK).natAbs ++ ")"),
      by rw [ht]; simp⟩
  · exact ⟨Chart.bar ["Company Avg CAC", "Industry Benchmark"] [none, some BENCHMARK]
      [fmtFlt2 none, fmtFlt2 (some BENCHMARK)], by rw [ht]; simp [h1]⟩
  · rw [ht]
    simp [h1, h2]

/-- Witness for the amended C10 at the empty two-column file. -/
theorem empty_rows_behavior_witness :
    (run (InputFile.mk ["quarter", "cac"] [])).2 = Except.ok () ∧
    seriesMean ((InputFile.mk ["quarter", "cac"] ([] : List (String × ℚ))).rows.map Prod.snd) = none ∧
    seriesMedian ((InputFile.mk ["quarter", "cac"] ([] : List (String × ℚ))).rows.map Prod.snd) = none ∧
    Effect.print ("Average CAC: " ++ fmtFlt2 none) ∈ (run (InputFile.mk ["quarter", "cac"] [])).1 ∧
    (run (InputFile.mk ["quarter", "cac"] [])).1[6]? = some (Effect.print verifiedLine) ∧
    (∃ c, Effect.savePng trendPath c ∈ (run (InputFile.mk ["quarter", "cac"] [])).1) ∧
    (∃ c, Effect.savePng cmpPath c ∈ (run (InputFile.mk ["quarter", "cac"] [])).1) ∧
    Effect.writeText "analysis_summary.txt" (summaryText 0 none none) ∈
      (run (InputFile.mk ["quarter", "cac"] [])).1 ∧
    ContainsSub ("Average CAC: " ++ (fmtFlt2 none ++ "\n")) (summaryText 0 none none) :=
  empty_rows_behavior (InputFile.mk ["quarter", "cac"] []) (by decide) (by decide) rfl

/-- C10, counterexample: on the empty two-column file the run completes
with a NaN mean, but the mismatch warning does not fire anywhere in the
trace: the verification line prints "Verified" instead. -/
theorem no_warning_on_empty :
    (run ⟨["quarter", "cac"], []⟩).2 = Except.ok () ∧
    seriesMean ([] : List ℚ) = none ∧
    (run ⟨["quarter", "cac"], []⟩).1[6]? = some (Effect.print verifiedLine) ∧
    Effect.print warningLine ∉ (run ⟨["quarter", "cac"], []⟩).1 := by
  refine ⟨rfl, rfl, rfl, ?_⟩
  decide

end Analysis
